import Mathlib

/-!
Shallow embedding of the face-swap service in `src/main.py`.

Raw bytes are modelled as `List Nat`; file names, paths and cache keys are
`String`s.  External effects (PIL decoding and encoding, the remote Gradio
worker, the filesystem) are modelled by explicit oracles threaded through the
functions, so that every definition is executable on concrete inputs.
-/

namespace FaceSwapApp

abbrev Bytes := List Nat

/-! String helpers used by the embedding (Python `rsplit`, `startswith`,
`endswith`, `lower`). -/

/-- Characters after the last dot of a character list; `none` when the list
has no dot.  Models Python's `'.' in s` plus `s.rsplit('.', 1)[1]`. -/
def afterLastDot : List Char → Option (List Char)
  | [] => none
  | c :: rest =>
    match afterLastDot rest with
    | some t => some t
    | none => if c = '.' then some rest else none

/-- Lower-case every character; models Python's `str.lower` on the
ASCII names this service handles. -/
def lowerChars (l : List Char) : List Char := l.map Char.toLower

/-- Does the character list `s` begin with `pat`?  Models `str.startswith`. -/
def beginsWith : List Char → List Char → Bool
  | [], _ => true
  | _ :: _, [] => false
  | a :: as, b :: bs => a == b && beginsWith as bs

/-- Does the character list `s` end with `pat`?  Models `str.endswith`. -/
def sufCheck (pat s : List Char) : Bool := beginsWith pat.reverse s.reverse

/-- Models `result.startswith("Error")`-style checks on strings. -/
def startsWithStr (s pat : String) : Bool := beginsWith pat.data s.data

/-- ALLOWED_EXTENSIONS of src/main.py line 45. -/
def ALLOWED_EXTENSIONS : List String := ["png", "jpg", "jpeg"]

/-- OUTPUT_FOLDER of src/main.py line 44. -/
def OUTPUT_FOLDER : String := "static/output"

/-- The extension after the last dot of a filename (as Python's
`filename.rsplit('.', 1)[1]`), or `""` when the name has no dot. -/
def extOf (filename : String) : String :=
  match afterLastDot filename.data with
  | some e => String.mk e
  | none => ""

/-- allowed_file of src/main.py lines 59-61:
`'.' in filename and filename.rsplit('.', 1)[1].lower() in ALLOWED_EXTENSIONS`. -/
def allowed_file (filename : String) : Bool :=
  match afterLastDot filename.data with
  | none => false
  | some ext => ALLOWED_EXTENSIONS.contains (String.mk (lowerChars ext))

/-- The `file_path.lower().endswith(('.png', '.jpg', '.jpeg'))` test of
validate_file (src/main.py line 67). -/
def hasImageExt (p : String) : Bool :=
  let l := lowerChars p.data
  sufCheck ".png".data l || sufCheck ".jpg".data l || sufCheck ".jpeg".data l

/-- validate_file of src/main.py lines 63-69; `ex` is the `os.path.exists`
oracle describing which paths exist when the function runs. -/
def validate_file (ex : String → Bool) (file_path : String) : Bool :=
  ex file_path && hasImageExt file_path

/-- get_file_hash of src/main.py lines 71-73: `hashlib.sha256(content).hexdigest()`.
The sha256 function itself is an abstract parameter `h`. -/
def get_file_hash (h : Bytes → String) (file_content : Bytes) : String :=
  h file_content

/-- The cache key of src/main.py line 173:
an f-string of the two hashes joined by a colon. -/
def fingerprint (h : Bytes → String) (source dest : Bytes) : String :=
  get_file_hash h source ++ ":" ++ get_file_hash h dest

/-! Image normalizer: compress_image of src/main.py lines 75-97.  PIL is
modelled by an oracle giving the decoded dimensions of a byte sequence
(`none` = `Image.open` raises), the float-rounding direction PIL's
`thumbnail` happens to take, and the re-encoded PNG bytes (`none` = the
save/read-back step raises, which the function catches). -/

structure ImgOracle where
  decode : Bytes → Option (Nat × Nat)
  up : Bool
  resizeEncode : Bytes → Nat × Nat → Option Bytes

/-- PIL's `round_aspect`: the rounding of the exact quotient `a / b`
(floor or ceiling, whichever the float key picks), clamped below by 1. -/
def roundAspect (up : Bool) (a b : Nat) : Nat :=
  max (if up then (a + b - 1) / b else a / b) 1

/-- The target size computed by `Image.thumbnail((x, y))` on a `w`-by-`h`
image: unchanged when already within bounds, otherwise scaled to fit,
preserving aspect ratio (`x*h >= y*w` is the exact-arithmetic form of PIL's
`x / y >= aspect`). -/
def thumbnailSize (up : Bool) (x y w h : Nat) : Nat × Nat :=
  if w ≤ x ∧ h ≤ y then (w, h)
  else if y * w ≤ x * h then (roundAspect up (y * w) h, y)
  else (x, roundAspect up (x * h) w)

/-- compress_image of src/main.py lines 75-97: decode, `thumbnail((1024,1024))`,
re-encode as optimized PNG; any exception anywhere in the body is caught and
the original bytes are returned unchanged. -/
def compress_image (o : ImgOracle) (content : Bytes) (max_size : Nat := 1024) : Bytes :=
  match o.decode content with
  | none => content
  | some (w, h) =>
    match o.resizeEncode content (thumbnailSize o.up max_size max_size w h) with
    | none => content
    | some compressed_content => compressed_content

/-! Resilient worker invoker: face_swap of src/main.py lines 123-148, the
`@retry(tries=3, delay=2, backoff=2)` decorator from the `retry` package, and
save_output_image of lines 109-121.  The output area is an association list
from path to file state; a PIL `save` that raises part-way through a write
performed directly at the final name leaves a truncated file there (the
source has no write-to-temp-then-rename step). -/

inductive FileVal
  | truncated
  | complete
deriving DecidableEq

abbrev OutputFS := List (String × FileVal)

def fsSet (fs : OutputFS) (p : String) (v : FileVal) : OutputFS :=
  (p, v) :: fs.filter (fun e => e.1 != p)

def fsGet (fs : OutputFS) (p : String) : Option FileVal :=
  (fs.find? (fun e => e.1 == p)).map (fun e => e.2)

/-- Outcome of one `client.predict` remote call (together with the
`Client(...)`/`handle_file` setup that precedes it inside the same try
block): it raises, or returns a value whose Python truthiness and target
are captured by the `Option` (with `none` for a falsy result). -/
inductive RemoteOutcome
  | raises (msg : String)
  | succeeds (path : Option String)

/-- How the body of save_output_image behaves: all steps succeed; the
`Image.open(result_path)` raises (nothing written); the `convert` raises
(nothing written); or the `img.save(output_path, "PNG")` raises after the
file at `output_path` has been created but before it is complete. -/
inductive SaveStep
  | ok
  | failOpen
  | failConvert
  | failWrite
deriving DecidableEq

/-- save_output_image of src/main.py lines 109-121: write the converted
result directly to `output_dir/output_name`, enhance it in place, and return
the output path; on an exception return `""`.  enhance_image (lines 99-107)
catches its own exceptions, so it never changes the returned value. -/
def save_output_image (step : SaveStep) (fs : OutputFS)
    (result_path output_dir output_name : String) : String × OutputFS :=
  let output_path := output_dir ++ "/" ++ output_name
  match step, result_path with
  | .ok, _ => (output_path, fsSet fs output_path .complete)
  | .failOpen, _ => ("", fs)
  | .failConvert, _ => ("", fs)
  | .failWrite, _ => ("", fsSet fs output_path .truncated)

/-- The environment one face_swap invocation runs against: which paths exist
for validate_file, the outcome of the i-th remote attempt, whether
`os.path.exists(result)` holds for the path a successful remote call
returned, and how the persistence step behaves. -/
structure WorkerWorld where
  pathExists : String → Bool
  remote : Nat → RemoteOutcome
  resultFileExists : String → Bool
  save : SaveStep

structure AttemptResult where
  ret : String
  remoteCalls : Nat
  fs : OutputFS
deriving DecidableEq

/-- One execution of the body of face_swap (src/main.py lines 126-148),
attempt number `i`: the whole body sits in a `try` whose blanket `except`
turns every exception into a normal `"Error: ..."` return. -/
def face_swap_attempt (w : WorkerWorld) (source_image dest_image : String)
    (fs : OutputFS) (uuidHex : String) (i : Nat) : AttemptResult :=
  if !(validate_file w.pathExists source_image && validate_file w.pathExists dest_image) then
    { ret := "Invalid input files", remoteCalls := 0, fs := fs }
  else
    match w.remote i with
    | .raises msg => { ret := "Error: " ++ msg, remoteCalls := 1, fs := fs }
    | .succeeds none => { ret := "Face swap failed", remoteCalls := 1, fs := fs }
    | .succeeds (some result) =>
      if w.resultFileExists result then
        let unique_filename := "face_swap_" ++ uuidHex ++ ".png"
        let saved := save_output_image w.save fs result OUTPUT_FOLDER unique_filename
        if saved.1 != "" then { ret := saved.1, remoteCalls := 1, fs := saved.2 }
        else { ret := "Failed to save output", remoteCalls := 1, fs := saved.2 }
      else { ret := "Face swap failed", remoteCalls := 1, fs := fs }

/-- The retry package's `__retry_internal` loop: call `f`, and on an
exception sleep `delay`, multiply the delay by `backoff`, and try again,
up to `tries` calls in total; the last exception propagates.  Returns the
final outcome, the number of calls made, and the list of sleeps performed. -/
def retryInternal {α : Type} (f : Nat → Except String α) :
    Nat → Nat → Nat → Nat → Except String α × Nat × List Nat
  | _, 0, _, _ => (Except.error "", 0, [])
  | i, 1, _, _ => (f i, 1, [])
  | i, tries + 2, delay, backoff =>
    match f i with
    | Except.ok a => (Except.ok a, 1, [])
    | Except.error _ =>
      let r := retryInternal f (i + 1) (tries + 1) (delay * backoff) backoff
      (r.1, r.2.1 + 1, delay :: r.2.2)

/-- face_swap of src/main.py lines 123-148: the `@retry(tries=3, delay=2,
backoff=2)` wrapper around face_swap_attempt.  The body's blanket `except`
converts every exception into a normal string return, so the callable the
wrapper runs never raises (and, the function being `async`, the wrapped call
builds a coroutine without running the body at all); either way the wrapper
observes a success on its first call.  Returns the attempt result together
with the list of backoff sleeps performed. -/
def face_swap (w : WorkerWorld) (source_image dest_image : String)
    (fs : OutputFS) (uuidHex : String) : AttemptResult × List Nat :=
  let r := retryInternal
    (fun i => Except.ok (face_swap_attempt w source_image dest_image fs uuidHex i)) 0 3 2 2
  (match r.1 with
   | Except.ok a => a
   | Except.error _ => { ret := "", remoteCalls := 0, fs := fs },
   r.2.2)

/-! Result cache.

Modelled from the spec: the cache at src/main.py line 57 is
`cachetools.TTLCache(maxsize=100, ttl=3600)`, an external library whose code
is not under src/; it is modelled from spec section 4.3: a bounded mapping
keyed by fingerprint, `get` absent if never inserted, expired, or evicted;
`put` inserts/overwrites, evicting the least-recently-inserted live entry
when at capacity; expiry is evaluated lazily at access time and an entry
older than the TTL is never returned as a hit. -/

structure CacheEntry where
  key : String
  val : String
  expires : Nat
deriving DecidableEq

structure TTLCache where
  entries : List CacheEntry
  maxsize : Nat
  ttl : Nat
deriving DecidableEq

/-- Modelled from the spec: `get(fingerprint)` (spec 4.3), a hit only when
the key is present and its TTL has not elapsed at time `now`. -/
def TTLCache.get (c : TTLCache) (k : String) (now : Nat) : Option String :=
  match c.entries.find? (fun e => e.key == k) with
  | some e => if now < e.expires then some e.val else none
  | none => none

/-- Modelled from the spec: `put(fingerprint, resultReference)` (spec 4.3):
drop expired entries and any previous entry for the key, evict the oldest
live entries when at capacity, then insert the new entry with expiry
`now + ttl`. -/
def TTLCache.put (c : TTLCache) (k v : String) (now : Nat) : TTLCache :=
  let live := c.entries.filter (fun e => now < e.expires && e.key != k)
  let kept := if c.maxsize ≤ live.length
    then live.drop (live.length + 1 - c.maxsize) else live
  { c with entries := kept ++ [{ key := k, val := v, expires := now + c.ttl }] }

/-! Request orchestrator: the /swap handler swap_faces of
src/main.py lines 155-206. -/

structure SwapRequest where
  srcFilename : String
  dstFilename : String
  srcContent : Bytes
  dstContent : Bytes

/-- The per-request environment: the PIL oracle, the sha256 hexdigest
function, the worker environment, the request time used for cache
operations, the temporary directory name, the three uuid4 hex draws of the
request, and BASE_URL. -/
structure SwapWorld where
  img : ImgOracle
  hash : Bytes → String
  worker : WorkerWorld
  now : Nat
  tempDir : String
  uuidSrc : String
  uuidDst : String
  uuidOut : String
  baseUrl : String

inductive Response
  | ok (result_image : String)
  | err (status : Nat) (message : String)
deriving DecidableEq

structure SwapOutcome where
  resp : Response
  cache : TTLCache
  fs : OutputFS
  remoteCalls : Nat
deriving DecidableEq

/-- The cache key computed at src/main.py line 173 for a request's two
(compressed) uploads. -/
def cacheKeyOf (w : SwapWorld) (req : SwapRequest) : String :=
  fingerprint w.hash (compress_image w.img req.srcContent)
    (compress_image w.img req.dstContent)

/-- swap_faces of src/main.py lines 155-206: validate the two upload
filenames, compress both contents, compute the cache key, answer from the
cache on a hit, otherwise write the compressed bytes to fresh temp paths
(which therefore exist when face_swap validates them), run face_swap, map
its three recognised failure strings to a 500, and otherwise cache and
return the result as `BASE_URL/<path>`. -/
def miss_source_path (w : SwapWorld) (req : SwapRequest) : String :=
  w.tempDir ++ "/source_" ++ w.uuidSrc ++ "." ++ extOf req.srcFilename

def miss_dest_path (w : SwapWorld) (req : SwapRequest) : String :=
  w.tempDir ++ "/dest_" ++ w.uuidDst ++ "." ++ extOf req.dstFilename

/-- The worker environment as face_swap sees it on a cache miss: the handler
has just written the two compressed uploads to the fresh temp paths, so
those two paths exist. -/
def miss_worker (w : SwapWorld) (req : SwapRequest) : WorkerWorld :=
  { w.worker with
    pathExists := fun p =>
      p == miss_source_path w req || p == miss_dest_path w req || w.worker.pathExists p }

/-- The face_swap result a cache miss obtains for the request. -/
def miss_result (w : SwapWorld) (req : SwapRequest) (fs : OutputFS) : AttemptResult :=
  (face_swap (miss_worker w req) (miss_source_path w req) (miss_dest_path w req)
    fs w.uuidOut).1

/-- The cache-miss branch of swap_faces (src/main.py lines 180-203): run
face_swap on the temp paths, map its recognised failure strings to a 500,
and otherwise cache the result under the fingerprint and return its URL. -/
def swap_miss (w : SwapWorld) (req : SwapRequest) (cache : TTLCache)
    (fs : OutputFS) (cache_key : String) : SwapOutcome :=
  if startsWithStr (miss_result w req fs).ret "Error"
      || (miss_result w req fs).ret == "Invalid input files"
      || (miss_result w req fs).ret == "Failed to save output" then
    { resp := .err 500 (miss_result w req fs).ret, cache := cache,
      fs := (miss_result w req fs).fs, remoteCalls := (miss_result w req fs).remoteCalls }
  else
    { resp := .ok (w.baseUrl ++ "/" ++ (miss_result w req fs).ret),
      cache := cache.put cache_key (miss_result w req fs).ret w.now,
      fs := (miss_result w req fs).fs, remoteCalls := (miss_result w req fs).remoteCalls }

def swap_faces (w : SwapWorld) (req : SwapRequest) (cache : TTLCache)
    (fs : OutputFS) : SwapOutcome :=
  if req.srcFilename == "" || req.dstFilename == "" then
    { resp := .err 400 "No file selected", cache := cache, fs := fs, remoteCalls := 0 }
  else if !(allowed_file req.srcFilename && allowed_file req.dstFilename) then
    { resp := .err 400 "Invalid file format. Only PNG, JPG, JPEG allowed",
      cache := cache, fs := fs, remoteCalls := 0 }
  else
    match cache.get (cacheKeyOf w req) w.now with
    | some stored =>
      { resp := .ok (w.baseUrl ++ "/" ++ stored), cache := cache, fs := fs, remoteCalls := 0 }
    | none => swap_miss w req cache fs (cacheKeyOf w req)

/-! Concrete instances used to evaluate the model on specific scenarios. -/

def cacheEmpty : TTLCache := { entries := [], maxsize := 100, ttl := 3600 }

/-- An oracle for which no byte sequence decodes as an image. -/
def imgUndecodable : ImgOracle :=
  { decode := fun _ => none, up := false, resizeEncode := fun _ _ => none }

/-- A demonstration hash distinguishing the two concrete uploads. -/
def hashDemo : Bytes → String := fun b => if b = [1] then "h1" else "h2"

/-- A worker whose remote call succeeds but designates no output file
(a falsy or nonexistent `predict` result). -/
def workerNullResult : WorkerWorld :=
  { pathExists := fun _ => false, remote := fun _ => .succeeds none,
    resultFileExists := fun _ => false, save := .ok }

/-- A worker whose remote call raises on the first two attempts and would
succeed on the third. -/
def workerFlaky : WorkerWorld :=
  { pathExists := fun _ => true,
    remote := fun i => if i < 2 then .raises "boom" else .succeeds (some "r"),
    resultFileExists := fun _ => true, save := .ok }

/-- A worker that succeeds and whose output persists cleanly. -/
def workerOk : WorkerWorld :=
  { pathExists := fun _ => false, remote := fun _ => .succeeds (some "res"),
    resultFileExists := fun p => p == "res", save := .ok }

/-- A worker that reaches the persistence step and fails during the write of
the final image. -/
def workerPersistFail : WorkerWorld :=
  { pathExists := fun _ => true, remote := fun _ => .succeeds (some "res"),
    resultFileExists := fun _ => true, save := .failWrite }

/-- A request uploading two well-named png files. -/
def reqPng : SwapRequest :=
  { srcFilename := "a.png", dstFilename := "b.png", srcContent := [1], dstContent := [2] }

def worldNullResult : SwapWorld :=
  { img := imgUndecodable, hash := hashDemo, worker := workerNullResult, now := 0,
    tempDir := "t", uuidSrc := "s", uuidDst := "d", uuidOut := "u", baseUrl := "B" }

def worldOk : SwapWorld :=
  { img := imgUndecodable, hash := hashDemo, worker := workerOk, now := 0,
    tempDir := "t", uuidSrc := "s", uuidDst := "d", uuidOut := "u", baseUrl := "B" }

/-- The same service world 10 time-units later, with the worker now down:
a second identical request must be served from the cache alone. -/
def worldOkLater : SwapWorld :=
  { worldOk with now := 10, worker := { workerOk with remote := fun _ => .raises "down" } }

/-! Helper lemmas. -/

lemma beginsWith_self_append (p rest : List Char) : beginsWith p (p ++ rest) = true := by
  induction p with
  | nil => rfl
  | cons a as ih => simp [beginsWith, ih]

lemma sufCheck_append (pat xs : List Char) : sufCheck pat (xs ++ pat) = true := by
  unfold sufCheck
  rw [List.reverse_append]
  exact beginsWith_self_append pat.reverse xs.reverse

lemma string_data_append3 (a b c : String) :
    (a ++ b ++ c).data = a.data ++ b.data ++ c.data := by
  rw [String.data_append, String.data_append]

lemma lowerChars_append (a b : List Char) :
    lowerChars (a ++ b) = lowerChars a ++ lowerChars b := List.map_append Char.toLower a b

/-- When the lower-cased extension of the path is one of the allowed ones,
the extension test of validate_file accepts the path. -/
lemma hasImageExt_of_lower (p : String) (pat : String)
    (hpat : pat = ".png" ∨ pat = ".jpg" ∨ pat = ".jpeg")
    (h : ∃ a, lowerChars p.data = a ++ pat.data) : hasImageExt p = true := by
  obtain ⟨a, ha⟩ := h
  simp only [hasImageExt, ha]
  rcases hpat with hp | hp | hp <;> subst hp <;> simp [sufCheck_append]

/-- A filename accepted by allowed_file yields, appended after a dot to any
stem, a path that validate_file's extension test accepts. -/
lemma hasImageExt_of_allowed (pre f : String) (h : allowed_file f = true) :
    hasImageExt (pre ++ "." ++ extOf f) = true := by
  unfold allowed_file at h
  cases hd : afterLastDot f.data with
  | none => rw [hd] at h; exact absurd h (by simp)
  | some ext =>
    rw [hd] at h
    have hext : extOf f = String.mk ext := by unfold extOf; rw [hd]
    have hdata : (pre ++ "." ++ extOf f).data = pre.data ++ (['.'] ++ ext) := by
      rw [hext, string_data_append3, List.append_assoc]
    have hdot : lowerChars ['.'] = ['.'] := by decide
    simp only [ALLOWED_EXTENSIONS, List.contains_eq_any_beq, List.any_cons,
      List.any_nil, Bool.or_eq_true, beq_iff_eq, Bool.or_false] at h
    have hlow : ∀ s : String, String.mk (lowerChars ext) = s →
        lowerChars (pre ++ "." ++ extOf f).data
          = lowerChars pre.data ++ ('.' :: s.data) := by
      intro s hs
      have hl : lowerChars ext = s.data := congrArg String.data hs
      rw [hdata, lowerChars_append, lowerChars_append, hdot, hl, List.singleton_append]
    rcases h with h | h | h
    · exact hasImageExt_of_lower _ ".png" (Or.inl rfl)
        ⟨lowerChars pre.data, hlow "png" h⟩
    · exact hasImageExt_of_lower _ ".jpg" (Or.inr (Or.inl rfl))
        ⟨lowerChars pre.data, hlow "jpg" h⟩
    · exact hasImageExt_of_lower _ ".jpeg" (Or.inr (Or.inr rfl))
        ⟨lowerChars pre.data, hlow "jpeg" h⟩

lemma roundAspect_le (up : Bool) (a b x : Nat) (hb : 0 < b) (hx : 1 ≤ x)
    (hab : a ≤ x * b) : roundAspect up a b ≤ x := by
  unfold roundAspect
  refine Nat.max_le.mpr ⟨?_, hx⟩
  cases up with
  | false =>
    simp only [Bool.false_eq_true, if_neg]
    exact Nat.div_le_of_le_mul (by rw [Nat.mul_comm]; exact hab)
  | true =>
    simp only [if_pos]
    have : a + b - 1 < (x + 1) * b := by
      have : (x + 1) * b = x * b + b := by ring
      omega
    exact Nat.le_of_lt_succ ((Nat.div_lt_iff_lt_mul hb).mpr this)

lemma thumbnailSize_le (up : Bool) (w h : Nat) (hw : 0 < w) (hh : 0 < h) :
    (thumbnailSize up 1024 1024 w h).1 ≤ 1024 ∧ (thumbnailSize up 1024 1024 w h).2 ≤ 1024 := by
  unfold thumbnailSize
  split_ifs with h1 h2
  · exact h1
  · exact ⟨roundAspect_le up (1024 * w) h 1024 hh (by norm_num) h2, le_refl 1024⟩
  · exact ⟨le_refl 1024, roundAspect_le up (1024 * h) w 1024 hw (by norm_num) (by omega)⟩

lemma thumbnailSize_eq_self (up : Bool) (w h : Nat) (hw : w ≤ 1024) (hh : h ≤ 1024) :
    thumbnailSize up 1024 1024 w h = (w, h) := by
  unfold thumbnailSize
  rw [if_pos ⟨hw, hh⟩]

/-- A callable that never raises is invoked exactly once by the retry loop,
with no backoff sleeps. -/
lemma retryInternal_ok {α : Type} (g : Nat → α) (i tries delay backoff : Nat)
    (ht : tries ≠ 0) :
    retryInternal (fun j => Except.ok (g j)) i tries delay backoff
      = (Except.ok (g i), 1, []) := by
  match tries with
  | 0 => exact absurd rfl ht
  | 1 => rfl
  | t + 2 => rfl

/-- face_swap runs its body exactly once: the blanket `except` inside the
body hides every exception from the retry wrapper. -/
lemma face_swap_eq (w : WorkerWorld) (src dst : String) (fs : OutputFS) (u : String) :
    face_swap w src dst fs u = (face_swap_attempt w src dst fs u 0, []) := by
  unfold face_swap
  rw [retryInternal_ok (fun i => face_swap_attempt w src dst fs u i) 0 3 2 2 (by decide)]

/-- Cache helper: find? misses a list all of whose keys differ from `k`. -/
lemma find?_key_none (l : List CacheEntry) (k : String)
    (h : ∀ x ∈ l, x.key ≠ k) : l.find? (fun x => x.key == k) = none :=
  List.find?_eq_none.mpr (fun x hx => by simpa [beq_iff_eq] using h x hx)

lemma find?_key_append_single (l : List CacheEntry) (e : CacheEntry)
    (h : ∀ x ∈ l, x.key ≠ e.key) :
    (l ++ [e]).find? (fun x => x.key == e.key) = some e := by
  rw [List.find?_append, find?_key_none l e.key h]
  simp [List.find?]

/-- Reading back the path just written into the output area. -/
lemma fsGet_set_self (fs : OutputFS) (p : String) (v : FileVal) :
    fsGet (fsSet fs p v) p = some v := by
  simp [fsGet, fsSet, List.find?]

/-- Every entry kept by put for a different key really has a different key. -/
lemma put_kept_keys (c : TTLCache) (k : String) (now : Nat) :
    ∀ x ∈ (if c.maxsize ≤ (c.entries.filter (fun e => now < e.expires && e.key != k)).length
      then (c.entries.filter (fun e => now < e.expires && e.key != k)).drop
        ((c.entries.filter (fun e => now < e.expires && e.key != k)).length + 1 - c.maxsize)
      else c.entries.filter (fun e => now < e.expires && e.key != k)), x.key ≠ k := by
  intro x hx
  have hmem : x ∈ c.entries.filter (fun e => now < e.expires && e.key != k) := by
    by_cases hc : c.maxsize ≤ (c.entries.filter (fun e => now < e.expires && e.key != k)).length
    · rw [if_pos hc] at hx; exact List.mem_of_mem_drop hx
    · rwa [if_neg hc] at hx
  have := (List.mem_filter.mp hmem).2
  simp only [Bool.and_eq_true, bne_iff_ne, ne_eq] at this
  exact this.2

/-- After put, a get for the same key hits exactly while the TTL has not
elapsed. -/
lemma TTLCache.get_put_self (c : TTLCache) (k v : String) (now t : Nat) :
    (c.put k v now).get k t = if t < now + c.ttl then some v else none := by
  unfold TTLCache.put TTLCache.get
  simp only
  rw [find?_key_append_single _ { key := k, val := v, expires := now + c.ttl }
    (put_kept_keys c k now)]

/-- A get can only hit a key that is present: once an entry is gone, the key
reads as absent. -/
lemma TTLCache.get_none_of_not_mem (c : TTLCache) (k : String) (now : Nat)
    (h : ∀ e ∈ c.entries, e.key ≠ k) : c.get k now = none := by
  unfold TTLCache.get
  rw [find?_key_none c.entries k h]

/-- Any hit comes from a live entry of the state whose TTL has not elapsed. -/
lemma TTLCache.get_some_fresh (c : TTLCache) (k : String) (now : Nat) (v : String)
    (h : c.get k now = some v) :
    ∃ e ∈ c.entries, e.key = k ∧ e.val = v ∧ now < e.expires := by
  unfold TTLCache.get at h
  cases hf : c.entries.find? (fun e => e.key == k) with
  | none => rw [hf] at h; exact absurd h (by simp)
  | some e =>
    rw [hf] at h
    dsimp only at h
    by_cases hfresh : now < e.expires
    · rw [if_pos hfresh] at h
      refine ⟨e, List.mem_of_find?_eq_some hf, ?_, ?_, hfresh⟩
      · have hp := List.find?_some hf
        exact beq_iff_eq.mp hp
      · exact Option.some.inj h
    · rw [if_neg hfresh] at h
      exact absurd h (by simp)

/-- put never grows the cache beyond its capacity. -/
lemma TTLCache.put_length_le (c : TTLCache) (k v : String) (now : Nat)
    (hm : 0 < c.maxsize) : (c.put k v now).entries.length ≤ c.maxsize := by
  unfold TTLCache.put
  simp only [List.length_append, List.length_cons, List.length_nil]
  by_cases hc : c.maxsize ≤ (c.entries.filter (fun e => now < e.expires && e.key != k)).length
  · rw [if_pos hc, List.length_drop]
    omega
  · rw [if_neg hc]
    omega

/-! Claim theorems. -/

/-- C6: whenever the source path or the destination path does not reference
an existing file with a .png/.jpg/.jpeg extension, face_swap returns the
InvalidInputError sentinel "Invalid input files" immediately: zero remote
call attempts, no backoff wait, and the output area untouched. -/
theorem invalid_paths_fail_fast_no_remote (w : WorkerWorld) (src dst : String)
    (fs : OutputFS) (u : String)
    (h : (validate_file w.pathExists src && validate_file w.pathExists dst) = false) :
    face_swap w src dst fs u
      = ({ ret := "Invalid input files", remoteCalls := 0, fs := fs }, []) := by
  rw [face_swap_eq]
  unfold face_swap_attempt
  rw [h]
  rfl

/-- Witness for C6: a nonexistent source path fails fast with zero remote
attempts. -/
theorem invalid_paths_fail_fast_no_remote_witness :
    face_swap
      { pathExists := fun _ => false, remote := fun _ => RemoteOutcome.succeeds (some "r"),
        resultFileExists := fun _ => true, save := SaveStep.ok }
      "missing.png" "b.png" [] "u"
      = ({ ret := "Invalid input files", remoteCalls := 0, fs := [] }, []) :=
  invalid_paths_fail_fast_no_remote
    { pathExists := fun _ => false, remote := fun _ => RemoteOutcome.succeeds (some "r"),
      resultFileExists := fun _ => true, save := SaveStep.ok }
    "missing.png" "b.png" [] "u" (by decide)

/-- C8: the fingerprint is the hash of the source, a colon, then the hash of
the destination; it is deterministic, and whenever the hash is collision-free
on the two inputs (and of its fixed hexdigest length) the fingerprint is
order-sensitive: swapping distinct source and destination changes it. -/
theorem fingerprint_stable_and_order_sensitive (h : Bytes → String) (A B : Bytes)
    (hlen : (h A).length = (h B).length)
    (hinj : h A = h B → A = B) (hne : A ≠ B) :
    fingerprint h A B = fingerprint h A B ∧ fingerprint h A B ≠ fingerprint h B A := by
  refine ⟨rfl, fun heq => hne (hinj (String.ext ?_))⟩
  have hd := congrArg String.data heq
  simp only [fingerprint, get_file_hash, string_data_append3, List.append_assoc] at hd
  exact (List.append_inj hd hlen).1

/-- Witness for C8 at a concrete collision-free hash. -/
theorem fingerprint_stable_and_order_sensitive_witness :
    fingerprint (fun b => if b = [0] then "aa" else "ab") [0] [1]
        = fingerprint (fun b => if b = [0] then "aa" else "ab") [0] [1] ∧
      fingerprint (fun b => if b = [0] then "aa" else "ab") [0] [1]
        ≠ fingerprint (fun b => if b = [0] then "aa" else "ab") [1] [0] :=
  fingerprint_stable_and_order_sensitive (fun b => if b = [0] then "aa" else "ab")
    [0] [1] (by decide) (by decide) (by decide)

/-- C10: compress_image is total; it either falls back to the original bytes
(on any internal failure, a failed decode included) or returns the PNG
re-encoding of the image at the thumbnail size, whose dimensions never
exceed 1024 and which leaves an already-within-bounds image un-upscaled. -/
theorem compress_image_total_bounded_or_original (o : ImgOracle) (content : Bytes)
    (hpos : ∀ w h, o.decode content = some (w, h) → 0 < w ∧ 0 < h) :
    compress_image o content = content ∨
    ∃ w h, o.decode content = some (w, h) ∧
      o.resizeEncode content (thumbnailSize o.up 1024 1024 w h)
        = some (compress_image o content) ∧
      (thumbnailSize o.up 1024 1024 w h).1 ≤ 1024 ∧
      (thumbnailSize o.up 1024 1024 w h).2 ≤ 1024 ∧
      (w ≤ 1024 → h ≤ 1024 → thumbnailSize o.up 1024 1024 w h = (w, h)) := by
  cases hd : o.decode content with
  | none => left; unfold compress_image; rw [hd]
  | some wh =>
    obtain ⟨w, h⟩ := wh
    cases he : o.resizeEncode content (thumbnailSize o.up 1024 1024 w h) with
    | none =>
      left
      simp [compress_image, hd, he]
    | some out =>
      right
      have hc : compress_image o content = out := by
        simp [compress_image, hd, he]
      obtain ⟨hw, hh⟩ := hpos w h hd
      exact ⟨w, h, rfl, by rw [hc, he],
        (thumbnailSize_le o.up w h hw hh).1, (thumbnailSize_le o.up w h hw hh).2,
        fun h1 h2 => thumbnailSize_eq_self o.up w h h1 h2⟩

/-- Witness for C10: a 2000-by-1000 image is rescaled within the 1024 bound
and re-encoded. -/
theorem compress_image_total_bounded_or_original_witness :
    compress_image
        { decode := fun _ => some (2000, 1000), up := false,
          resizeEncode := fun _ d => some [d.1, d.2] } [7] = [7] ∨
      ∃ w h,
        ({ decode := fun _ => some (2000, 1000), up := false,
           resizeEncode := fun _ d => some [d.1, d.2] } : ImgOracle).decode [7]
            = some (w, h) ∧
        ({ decode := fun _ => some (2000, 1000), up := false,
           resizeEncode := fun _ d => some [d.1, d.2] } : ImgOracle).resizeEncode [7]
            (thumbnailSize false 1024 1024 w h)
            = some (compress_image
                { decode := fun _ => some (2000, 1000), up := false,
                  resizeEncode := fun _ d => some [d.1, d.2] } [7]) ∧
        (thumbnailSize false 1024 1024 w h).1 ≤ 1024 ∧
        (thumbnailSize false 1024 1024 w h).2 ≤ 1024 ∧
        (w ≤ 1024 → h ≤ 1024 → thumbnailSize false 1024 1024 w h = (w, h)) :=
  compress_image_total_bounded_or_original
    { decode := fun _ => some (2000, 1000), up := false,
      resizeEncode := fun _ d => some [d.1, d.2] } [7]
    (fun w h hq => by
      have h2 : ((2000 : Nat), (1000 : Nat)) = (w, h) := Option.some.inj hq
      injection h2 with hw hh
      omega)

/-- C7: for the TTLCache with capacity 100 and TTL 3600 (spec-modelled, see
the cache definitions): after put(f, r), get(f) returns r exactly until the
TTL elapses; once the TTL has elapsed get(f) is absent; any hit comes from a
live entry whose TTL has not elapsed (an entry older than the TTL is never
returned); once an entry is gone (evicted or never inserted) get is absent;
and put keeps the cache within the 100-entry capacity. -/
theorem ttl_cache_soundness (c : TTLCache) (f r : String) (now t : Nat)
    (hm : c.maxsize = 100) (ht : c.ttl = 3600) :
    (t < now + 3600 → (c.put f r now).get f t = some r) ∧
    (now + 3600 ≤ t → (c.put f r now).get f t = none) ∧
    (∀ v, c.get f now = some v → ∃ e ∈ c.entries, e.key = f ∧ e.val = v ∧ now < e.expires) ∧
    ((∀ e ∈ c.entries, e.key ≠ f) → c.get f now = none) ∧
    (c.put f r now).entries.length ≤ 100 := by
  refine ⟨?_, ?_, ?_, ?_, ?_⟩
  · intro hfresh
    rw [TTLCache.get_put_self, ht, if_pos hfresh]
  · intro hstale
    rw [TTLCache.get_put_self, ht, if_neg (by omega)]
  · intro v hv
    exact TTLCache.get_some_fresh c f now v hv
  · exact TTLCache.get_none_of_not_mem c f now
  · rw [← hm]
    exact TTLCache.put_length_le c f r now (by omega)

/-- Witness for C7: on a concrete empty 100/3600 cache, a put is readable
at time 5 and absent at time 3600. -/
theorem ttl_cache_soundness_witness :
    (({ entries := [], maxsize := 100, ttl := 3600 } : TTLCache).put "f" "r" 0).get "f" 5
        = some "r" ∧
      (({ entries := [], maxsize := 100, ttl := 3600 } : TTLCache).put "f" "r" 0).get "f" 3600
        = none :=
  ⟨(ttl_cache_soundness { entries := [], maxsize := 100, ttl := 3600 } "f" "r" 0 5
      rfl rfl).1 (by omega),
   (ttl_cache_soundness { entries := [], maxsize := 100, ttl := 3600 } "f" "r" 0 3600
      rfl rfl).2.1 (by omega)⟩

/-- C4 counterexample: a persistence failure during the direct write of the
final image leaves a (truncated) file visible at the canonical output name
`face_swap_<id>.png`, contradicting the claim that no file is visible there
on the failure path. -/
theorem persist_failure_leaves_truncated_file_cex :
    (save_output_image SaveStep.failWrite [] "res" OUTPUT_FOLDER "face_swap_u.png").1 = "" ∧
      fsGet (save_output_image SaveStep.failWrite [] "res" OUTPUT_FOLDER "face_swap_u.png").2
        "static/output/face_swap_u.png" = some FileVal.truncated := by
  constructor
  · rfl
  · rfl

/-- C4 amended: failure paths of the Worker Invoker.  Every failure path
other than a mid-write persistence failure leaves zero new result artifacts
in the output area; a persistence failure makes face_swap return
"Failed to save output", with nothing written when the failure precedes the
write (open or convert of the result), but with a truncated file visible at
the canonical output name `face_swap_<id>.png` when the write itself fails
part-way, because the image is saved directly to the final name with no
write-to-temp-then-rename step. -/
theorem persist_failure_returns_empty_amended (w : WorkerWorld) (src dst : String)
    (fs : OutputFS) (u : String) :
    ((validate_file w.pathExists src && validate_file w.pathExists dst) = false →
      (face_swap w src dst fs u).1.fs = fs) ∧
    (∀ msg, w.remote 0 = RemoteOutcome.raises msg → (face_swap w src dst fs u).1.fs = fs) ∧
    (w.remote 0 = RemoteOutcome.succeeds none → (face_swap w src dst fs u).1.fs = fs) ∧
    (∀ p, w.remote 0 = RemoteOutcome.succeeds (some p) → w.resultFileExists p = false →
      (face_swap w src dst fs u).1.fs = fs) ∧
    (∀ p, (validate_file w.pathExists src && validate_file w.pathExists dst) = true →
      w.remote 0 = RemoteOutcome.succeeds (some p) → w.resultFileExists p = true →
      w.save ≠ SaveStep.ok →
      (face_swap w src dst fs u).1.ret = "Failed to save output" ∧
      ((w.save = SaveStep.failOpen ∨ w.save = SaveStep.failConvert) →
        (face_swap w src dst fs u).1.fs = fs) ∧
      (w.save = SaveStep.failWrite →
        fsGet (face_swap w src dst fs u).1.fs
          (OUTPUT_FOLDER ++ "/" ++ ("face_swap_" ++ u ++ ".png"))
          = some FileVal.truncated)) := by
  refine ⟨?_, ?_, ?_, ?_, ?_⟩
  · intro hv
    simp [face_swap_eq, face_swap_attempt, hv]
  · intro msg hr
    by_cases hv : (validate_file w.pathExists src && validate_file w.pathExists dst) = true
    · simp [face_swap_eq, face_swap_attempt, hv, hr]
    · simp [face_swap_eq, face_swap_attempt, Bool.eq_false_iff.mpr hv]
  · intro hr
    by_cases hv : (validate_file w.pathExists src && validate_file w.pathExists dst) = true
    · simp [face_swap_eq, face_swap_attempt, hv, hr]
    · simp [face_swap_eq, face_swap_attempt, Bool.eq_false_iff.mpr hv]
  · intro p hr hex
    by_cases hv : (validate_file w.pathExists src && validate_file w.pathExists dst) = true
    · simp [face_swap_eq, face_swap_attempt, hv, hr, hex]
    · simp [face_swap_eq, face_swap_attempt, Bool.eq_false_iff.mpr hv]
  · intro p hv hr hex hsave
    cases hs : w.save with
    | ok => exact absurd hs hsave
    | failOpen =>
      simp [face_swap_eq, face_swap_attempt, hv, hr, hex, hs, save_output_image]
    | failConvert =>
      simp [face_swap_eq, face_swap_attempt, hv, hr, hex, hs, save_output_image]
    | failWrite =>
      simp [face_swap_eq, face_swap_attempt, hv, hr, hex, hs, save_output_image,
        fsGet_set_self]

/-- Witness for C4's amended claim: a concrete invocation whose final write
fails returns "Failed to save output" and leaves a truncated file at the
canonical output name. -/
theorem persist_failure_returns_empty_amended_witness :
    (face_swap workerPersistFail "t/a.png" "t/b.png" [] "w").1.ret
        = "Failed to save output" ∧
      fsGet (face_swap workerPersistFail "t/a.png" "t/b.png" [] "w").1.fs
        (OUTPUT_FOLDER ++ "/" ++ ("face_swap_" ++ "w" ++ ".png"))
        = some FileVal.truncated := by
  have H := (persist_failure_returns_empty_amended workerPersistFail
    "t/a.png" "t/b.png" [] "w").2.2.2.2 "res" (by decide) rfl rfl (by decide)
  exact ⟨H.1, H.2.2 rfl⟩

/-- C1: evaluation of the handler at a failing worker invocation (the remote
call succeeds but designates no existing output file).  face_swap returns
"Face swap failed", a failure string the handler's error filter does not
recognise, so the handler answers 200 with result_image "B/Face swap failed"
and creates a cache entry mapping the fingerprint to "Face swap failed" —
a stored reference that designates no result artifact.  This contradicts the
claim, which requires no cache entry on any worker failure. -/
theorem worker_failure_creates_cache_entry_bug :
    (swap_faces worldNullResult reqPng cacheEmpty []).resp = Response.ok "B/Face swap failed" ∧
    (swap_faces worldNullResult reqPng cacheEmpty []).cache.get "h1:h2" 0
      = some "Face swap failed" ∧
    (swap_faces worldNullResult reqPng cacheEmpty []).remoteCalls = 1 ∧
    (swap_faces worldNullResult reqPng cacheEmpty []).fs = [] := by
  decide

/-- C2: evaluation of face_swap at the claim's scenario (remote call raises
on the first two attempts, would succeed on the third).  The composition of
the retry wrapper with a body whose blanket `except` swallows every
exception makes exactly one remote attempt, performs no backoff wait, and
returns "Error: boom" — not the claimed success after 3 attempts with waits
of 2 and 4.  The second conjunct shows the retry loop itself would have
delivered that intended behaviour had the exceptions reached it. -/
theorem retry_never_retries_bug :
    face_swap workerFlaky "t/a.png" "t/b.png" [] "u"
        = ({ ret := "Error: boom", remoteCalls := 1, fs := [] }, []) ∧
      retryInternal
          (fun i => if i < 2 then Except.error "boom" else Except.ok (0 : Nat)) 0 3 2 2
        = (Except.ok 0, 3, [2, 4]) := by
  constructor
  · decide
  · rfl

/-- C3 counterexample: a byte sequence that decodes as no image does not
make the request fail.  compress_image swallows the decode failure and
returns the bytes unchanged, and the handler (with a healthy worker)
answers 200 — no validation-class failure reaches the caller. -/
theorem undecodable_input_no_failure_cex :
    compress_image imgUndecodable [9] = [9] ∧
      (swap_faces worldOk { reqPng with srcContent := [9], dstContent := [9] }
          cacheEmpty []).resp
        = Response.ok "B/static/output/face_swap_u.png" := by
  constructor
  · rfl
  · decide

/-- C3 amended: for every input byte sequence that is not a decodable raster
image, normalization does not fail: compress_image catches the decode
failure, logs it, and returns the original bytes unchanged, and the request
proceeds with the un-normalized bytes. -/
theorem undecodable_input_falls_back_amended (o : ImgOracle) (content : Bytes)
    (h : o.decode content = none) : compress_image o content = content := by
  unfold compress_image
  rw [h]

/-- Witness for C3's amended claim. -/
theorem undecodable_input_falls_back_amended_witness :
    compress_image imgUndecodable [3, 4] = [3, 4] :=
  undecodable_input_falls_back_amended imgUndecodable [3, 4] rfl

/-- C9: a request whose uploads are missing a filename or carry an extension
outside png/jpg/jpeg (the allowed_file test) is answered 400 with an error
payload; the worker is not invoked (zero remote calls), nothing is written
to the output area, and the cache is untouched. -/
theorem bad_upload_rejected_no_side_effects (w : SwapWorld) (req : SwapRequest)
    (cache : TTLCache) (fs : OutputFS)
    (h : req.srcFilename = "" ∨ req.dstFilename = "" ∨
      allowed_file req.srcFilename = false ∨ allowed_file req.dstFilename = false) :
    ∃ m, swap_faces w req cache fs
      = { resp := Response.err 400 m, cache := cache, fs := fs, remoteCalls := 0 } := by
  by_cases h1 : (req.srcFilename == "" || req.dstFilename == "") = true
  · refine ⟨"No file selected", ?_⟩
    unfold swap_faces
    rw [if_pos h1]
  · have hb : (req.srcFilename == "" || req.dstFilename == "") = false :=
      Bool.eq_false_iff.mpr h1
    have h2 : (allowed_file req.srcFilename && allowed_file req.dstFilename) = false := by
      rcases h with h | h | h | h
      · exact absurd (by simp [h]) h1
      · exact absurd (by simp [h]) h1
      · simp [h]
      · simp [h]
    refine ⟨"Invalid file format. Only PNG, JPG, JPEG allowed", ?_⟩
    unfold swap_faces
    rw [if_neg (by simp [hb]), if_pos (by rw [h2]; rfl)]

/-- Witness for C9: uploading a .txt file as source_image yields a 400 with
no side effects. -/
theorem bad_upload_rejected_no_side_effects_witness :
    ∃ m, swap_faces worldOk { reqPng with srcFilename := "a.txt" } cacheEmpty []
      = { resp := Response.err 400 m, cache := cacheEmpty, fs := [], remoteCalls := 0 } :=
  bad_upload_rejected_no_side_effects worldOk { reqPng with srcFilename := "a.txt" }
    cacheEmpty [] (Or.inr (Or.inr (Or.inl (by decide))))

/-- C5: a request that populated the cache on a miss (any successful first
call), replayed with the identical uploads while the entry's TTL has not
elapsed (same image and hash oracles, any worker state, any later time
within the TTL window), is answered with the very same result_image, with
the worker invoked zero times and the cache and output area untouched. -/
theorem cache_hit_returns_stored_no_worker (w w2 : SwapWorld) (req : SwapRequest)
    (c : TTLCache) (fs : OutputFS) (u : String)
    (himg : w2.img = w.img) (hhash : w2.hash = w.hash) (hbase : w2.baseUrl = w.baseUrl)
    (hmiss : c.get (cacheKeyOf w req) w.now = none)
    (hok : (swap_faces w req c fs).resp = Response.ok u)
    (hfresh : w2.now < w.now + c.ttl) :
    (swap_faces w2 req (swap_faces w req c fs).cache (swap_faces w req c fs).fs).resp
        = Response.ok u ∧
    (swap_faces w2 req (swap_faces w req c fs).cache (swap_faces w req c fs).fs).remoteCalls
        = 0 ∧
    (swap_faces w2 req (swap_faces w req c fs).cache (swap_faces w req c fs).fs).cache
        = (swap_faces w req c fs).cache ∧
    (swap_faces w2 req (swap_faces w req c fs).cache (swap_faces w req c fs).fs).fs
        = (swap_faces w req c fs).fs := by
  by_cases h1 : (req.srcFilename == "" || req.dstFilename == "") = true
  case pos =>
    have e0 : swap_faces w req c fs
        = { resp := .err 400 "No file selected", cache := c, fs := fs, remoteCalls := 0 } := by
      unfold swap_faces
      rw [if_pos h1]
    rw [e0] at hok
    simp at hok
  case neg =>
  by_cases h2 : (allowed_file req.srcFilename && allowed_file req.dstFilename) = true
  case neg =>
    have h2f : (allowed_file req.srcFilename && allowed_file req.dstFilename) = false :=
      Bool.eq_false_iff.mpr h2
    have e0 : swap_faces w req c fs
        = { resp := .err 400 "Invalid file format. Only PNG, JPG, JPEG allowed",
            cache := c, fs := fs, remoteCalls := 0 } := by
      unfold swap_faces
      rw [if_neg h1, if_pos (by rw [h2f]; rfl)]
    rw [e0] at hok
    simp at hok
  case pos =>
  have e1 : swap_faces w req c fs = swap_miss w req c fs (cacheKeyOf w req) := by
    unfold swap_faces
    rw [if_neg h1, if_neg (by simp [h2]), hmiss]
  by_cases herr : (startsWithStr (miss_result w req fs).ret "Error"
      || (miss_result w req fs).ret == "Invalid input files"
      || (miss_result w req fs).ret == "Failed to save output") = true
  case pos =>
    have e2 : swap_miss w req c fs (cacheKeyOf w req)
        = { resp := .err 500 (miss_result w req fs).ret, cache := c,
            fs := (miss_result w req fs).fs,
            remoteCalls := (miss_result w req fs).remoteCalls } := by
      unfold swap_miss
      rw [if_pos herr]
    rw [e1, e2] at hok
    simp at hok
  case neg =>
  have e2 : swap_miss w req c fs (cacheKeyOf w req)
      = { resp := .ok (w.baseUrl ++ "/" ++ (miss_result w req fs).ret),
          cache := c.put (cacheKeyOf w req) (miss_result w req fs).ret w.now,
          fs := (miss_result w req fs).fs,
          remoteCalls := (miss_result w req fs).remoteCalls } := by
    unfold swap_miss
    rw [if_neg herr]
  have hu : u = w.baseUrl ++ "/" ++ (miss_result w req fs).ret := by
    rw [e1, e2] at hok
    exact (Response.ok.inj hok).symm
  have hkey2 : cacheKeyOf w2 req = cacheKeyOf w req := by
    unfold cacheKeyOf
    rw [himg, hhash]
  have hget2 : (c.put (cacheKeyOf w req) (miss_result w req fs).ret w.now).get
      (cacheKeyOf w req) w2.now = some (miss_result w req fs).ret := by
    rw [TTLCache.get_put_self, if_pos hfresh]
  have e3 : swap_faces w2 req
      (c.put (cacheKeyOf w req) (miss_result w req fs).ret w.now)
      (miss_result w req fs).fs
      = { resp := .ok (w2.baseUrl ++ "/" ++ (miss_result w req fs).ret),
          cache := c.put (cacheKeyOf w req) (miss_result w req fs).ret w.now,
          fs := (miss_result w req fs).fs, remoteCalls := 0 } := by
    unfold swap_faces
    rw [if_neg h1, if_neg (by simp [h2]), hkey2, hget2]
  rw [e1, e2, e3]
  refine ⟨?_, rfl, rfl, rfl⟩
  rw [hbase, hu]

/-- Witness for C5: the concrete successful request populates the cache, and
replaying it 10 time-units later with the worker down is answered with the
same result_image and zero remote calls. -/
theorem cache_hit_returns_stored_no_worker_witness :
    (swap_faces worldOkLater reqPng (swap_faces worldOk reqPng cacheEmpty []).cache
        (swap_faces worldOk reqPng cacheEmpty []).fs).resp
      = Response.ok "B/static/output/face_swap_u.png" ∧
    (swap_faces worldOkLater reqPng (swap_faces worldOk reqPng cacheEmpty []).cache
        (swap_faces worldOk reqPng cacheEmpty []).fs).remoteCalls = 0 :=
  ⟨(cache_hit_returns_stored_no_worker worldOk worldOkLater reqPng cacheEmpty []
      "B/static/output/face_swap_u.png" rfl rfl rfl (by decide) (by decide) (by decide)).1,
   (cache_hit_returns_stored_no_worker worldOk worldOkLater reqPng cacheEmpty []
      "B/static/output/face_swap_u.png" rfl rfl rfl (by decide) (by decide) (by decide)).2.1⟩

end FaceSwapApp
